import Mathlib

set_option maxRecDepth 16384

/-!
Verification development for the Yareusnap food-detection backend
(`app/main.py`, `app/yolo_detector.py`, `app/mistral_service.py`,
`app/nutrition_advisor.py`).

The Python code is shallowly embedded: pure functions become Lean
functions; the two external black boxes (the YOLO model and the Mistral
HTTP endpoint, plus `cv2.imread`) are passed in explicitly as oracle
arguments describing their observable outcome for one request.  Python
`float` confidences are modelled as rationals, Python JSON values as the
inductive type `J` below, and `json.loads` as an executable JSON decoder.
-/

/-- Model of a decoded Python JSON value (the result of `json.loads` and
the dynamic dicts built in `main.py`).  Numbers keep their source lexeme,
which is enough for every property proved here. -/
inductive J where
  | null : J
  | bool (b : Bool) : J
  | num (lexeme : String) : J
  | str (s : String) : J
  | arr (elems : List J) : J
  | obj (fields : List (String × J)) : J

/-- Dictionary lookup, modelling Python's `data[key]` on a decoded JSON
object: `none` models the `KeyError`/`TypeError` raised when `data` is not
a dict or lacks the key. -/
def jLookup (j : J) (k : String) : Option J :=
  match j with
  | J.obj fields => go fields
  | _ => none
where go : List (String × J) → Option J
  | [] => none
  | (k0, v) :: rest => if k0 = k then some v else go rest

/-- Insert a key/value pair into an association list with Python-dict
semantics: a duplicate key keeps its original position and takes the new
value. -/
def dictInsert (kvs : List (String × J)) (k : String) (v : J) : List (String × J) :=
  match kvs with
  | [] => [(k, v)]
  | (k0, v0) :: rest => if k0 = k then (k0, v) :: rest else (k0, v0) :: dictInsert rest k v

/-- JSON insignificant whitespace. -/
def isJsonWs (c : Char) : Bool :=
  c = ' ' || c = '\t' || c = '\n' || c = '\r'

/-- Drop leading JSON whitespace. -/
def skipWs : List Char → List Char
  | [] => []
  | c :: cs => if isJsonWs c then skipWs cs else c :: cs

/-- Value of one hex digit, if any. -/
def hexVal (c : Char) : Option Nat :=
  if '0' ≤ c ∧ c ≤ '9' then some (c.toNat - '0'.toNat)
  else if 'a' ≤ c ∧ c ≤ 'f' then some (c.toNat - 'a'.toNat + 10)
  else if 'A' ≤ c ∧ c ≤ 'F' then some (c.toNat - 'A'.toNat + 10)
  else none

/-- Lex the body of a JSON string (the opening quote already consumed),
with the escapes and the strict control-character rejection of Python's
`json` module.  Lone surrogates from `\uXXXX` degrade to `\0` rather than
pairing; no claim depends on them. -/
def lexStr (acc : List Char) : List Char → Option (String × List Char)
  | [] => none
  | c :: cs =>
    if c = '"' then some (String.mk acc.reverse, cs)
    else if c = '\\' then
      match cs with
      | [] => none
      | e :: cs2 =>
        if e = '"' then lexStr ('"' :: acc) cs2
        else if e = '\\' then lexStr ('\\' :: acc) cs2
        else if e = '/' then lexStr ('/' :: acc) cs2
        else if e = 'b' then lexStr ('\x08' :: acc) cs2
        else if e = 'f' then lexStr ('\x0c' :: acc) cs2
        else if e = 'n' then lexStr ('\n' :: acc) cs2
        else if e = 'r' then lexStr ('\r' :: acc) cs2
        else if e = 't' then lexStr ('\t' :: acc) cs2
        else if e = 'u' then
          match cs2 with
          | h1 :: h2 :: h3 :: h4 :: cs3 =>
            match hexVal h1, hexVal h2, hexVal h3, hexVal h4 with
            | some a, some b, some c2, some d2 =>
              lexStr (Char.ofNat (a * 4096 + b * 256 + c2 * 16 + d2) :: acc) cs3
            | _, _, _, _ => none
          | _ => none
        else none
    else if c.toNat < 32 then none
    else lexStr (c :: acc) cs

/-- Longest digit prefix and the rest. -/
def lexDigits (cs : List Char) : List Char × List Char :=
  (cs.takeWhile Char.isDigit, cs.dropWhile Char.isDigit)

/-- Integer part of a JSON number (no leading zeros). -/
def lexInt : List Char → Option (List Char × List Char)
  | [] => none
  | '0' :: rest =>
    match rest with
    | d :: _ => if d.isDigit then none else some (['0'], rest)
    | [] => some (['0'], [])
  | c :: rest =>
    if c.isDigit then
      let (ds, rest2) := lexDigits rest
      some (c :: ds, rest2)
    else none

/-- Optional fraction part of a JSON number. -/
def lexFrac (cs : List Char) : Option (List Char × List Char) :=
  match cs with
  | '.' :: rest =>
    let (ds, rest2) := lexDigits rest
    if ds = [] then none else some ('.' :: ds, rest2)
  | _ => some ([], cs)

/-- Optional exponent part of a JSON number. -/
def lexExp (cs : List Char) : Option (List Char × List Char) :=
  match cs with
  | e :: rest =>
    if e = 'e' ∨ e = 'E' then
      let (sgn, rest2) :=
        match rest with
        | '+' :: r => (['+'], r)
        | '-' :: r => (['-'], r)
        | _ => (([] : List Char), rest)
      let (ds, rest3) := lexDigits rest2
      if ds = [] then none else some (e :: (sgn ++ ds), rest3)
    else some ([], cs)
  | [] => some ([], [])

/-- Lex a JSON number, returning its lexeme.  (`json.loads` additionally
accepts `NaN`/`Infinity`; those inputs simply fail to decode here, which
only narrows the hypotheses of the decode-path theorems.) -/
def lexNumber (cs : List Char) : Option (String × List Char) :=
  let (neg, cs1) :=
    match cs with
    | '-' :: r => ((['-'] : List Char), r)
    | _ => (([] : List Char), cs)
  match lexInt cs1 with
  | some (ip, cs2) =>
    match lexFrac cs2 with
    | some (fp, cs3) =>
      match lexExp cs3 with
      | some (ep, cs4) => some (String.mk (neg ++ ip ++ fp ++ ep), cs4)
      | none => none
    | none => none
  | none => none

mutual

/-- Fuel-indexed recursive-descent JSON value decoder, modelling
`json.loads` on the grammar it accepts. -/
def parseValue : Nat → List Char → Option (J × List Char)
  | 0, _ => none
  | fuel + 1, cs =>
    match skipWs cs with
    | [] => none
    | c :: rest =>
      if c = '\x7b' then
        match skipWs rest with
        | '\x7d' :: rest2 => some (J.obj [], rest2)
        | rest2 => parseMembers fuel rest2 []
      else if c = '[' then
        match skipWs rest with
        | ']' :: rest2 => some (J.arr [], rest2)
        | rest2 => parseElements fuel rest2 []
      else if c = '"' then
        match lexStr [] rest with
        | some (s, rest2) => some (J.str s, rest2)
        | none => none
      else if c = 't' then
        match rest with
        | 'r' :: 'u' :: 'e' :: rest2 => some (J.bool true, rest2)
        | _ => none
      else if c = 'f' then
        match rest with
        | 'a' :: 'l' :: 's' :: 'e' :: rest2 => some (J.bool false, rest2)
        | _ => none
      else if c = 'n' then
        match rest with
        | 'u' :: 'l' :: 'l' :: rest2 => some (J.null, rest2)
        | _ => none
      else
        match lexNumber (c :: rest) with
        | some (s, rest2) => some (J.num s, rest2)
        | none => none

/-- Members of a JSON object after its opening brace. -/
def parseMembers : Nat → List Char → List (String × J) → Option (J × List Char)
  | 0, _, _ => none
  | fuel + 1, cs, acc =>
    match skipWs cs with
    | '"' :: rest =>
      match lexStr [] rest with
      | some (k, rest2) =>
        match skipWs rest2 with
        | ':' :: rest3 =>
          match parseValue fuel rest3 with
          | some (v, rest4) =>
            match skipWs rest4 with
            | ',' :: rest5 => parseMembers fuel rest5 (dictInsert acc k v)
            | '\x7d' :: rest5 => some (J.obj (dictInsert acc k v), rest5)
            | _ => none
          | none => none
        | _ => none
      | none => none
    | _ => none

/-- Elements of a JSON array after its opening bracket. -/
def parseElements : Nat → List Char → List J → Option (J × List Char)
  | 0, _, _ => none
  | fuel + 1, cs, acc =>
    match parseValue fuel cs with
    | some (v, rest) =>
      match skipWs rest with
      | ',' :: rest2 => parseElements fuel rest2 (acc ++ [v])
      | ']' :: rest2 => some (J.arr (acc ++ [v]), rest2)
      | _ => none
    | none => none

end

/-- Model of Python's `json.loads`: decode one JSON value and demand that
only whitespace follows.  The fuel is generous for any input whose decode
terminates physically. -/
def json_loads (s : String) : Option J :=
  match parseValue (4 * s.length + 16) s.data with
  | some (j, rest) => if skipWs rest = [] then some j else none
  | none => none

/-- Characters stripped by Python's `str.strip()` (the ASCII ones; the
keywords and markers the parser tests for are all ASCII). -/
def isPyWs (c : Char) : Bool :=
  c = ' ' || c = '\t' || c = '\n' || c = '\r' || c = '\x0b' || c = '\x0c'

/-- Model of Python's `str.strip()`. -/
def pyStrip (s : String) : String :=
  String.mk (((s.data.dropWhile isPyWs).reverse.dropWhile isPyWs).reverse)

/-- Model of Python's `str.lower()` (ASCII; every keyword tested in the
source is ASCII). -/
def pyLower (s : String) : String :=
  String.mk (s.data.map Char.toLower)

/-- Model of Python's `str.startswith`. -/
def strStartsWith (s pre : String) : Bool :=
  pre.data.isPrefixOf s.data

/-- Model of Python's slicing `s[n:]`. -/
def strDrop (s : String) (n : Nat) : String :=
  String.mk (s.data.drop n)

/-- Model of Python's substring test `pat in s`: some suffix of `s`
starts with `pat`. -/
def strContains (s pat : String) : Bool :=
  go pat.data s.data
where go (p : List Char) : List Char → Bool
  | [] => p.isEmpty
  | c :: cs => p.isPrefixOf (c :: cs) || go p cs

/-- Model of Python's `str.split` on the newline separator. -/
def splitLinesAux (acc : List Char) : List Char → List String
  | [] => [String.mk acc.reverse]
  | c :: cs =>
    if c = '\n' then String.mk acc.reverse :: splitLinesAux [] cs
    else splitLinesAux (c :: acc) cs

/-- `response_text.split('\n')`. -/
def pySplitLines (s : String) : List String :=
  splitLinesAux [] s.data

/-- The structured record built by the heuristic branch of
`parse_mistral_response` (`main.py` lines 437-449). -/
structure Analysis where
  food_type : String
  components : List String
  nutrition : List (String × String)
  deficiencies : List String
  recommendations : List String
deriving DecidableEq

/-- The `current_section` state of the heuristic line scan (`None` and the
four section strings used in `main.py`). -/
inductive SectionState where
  | none : SectionState
  | components : SectionState
  | nutrition : SectionState
  | deficiencies : SectionState
  | recommendations : SectionState
deriving DecidableEq

/-- The five fixed nutrition entries of the heuristic template
(`main.py` lines 440-446). -/
def default_nutrition : List (String × String) :=
  [("protein", "Tidak Diketahui"), ("carbs", "Tidak Diketahui"), ("fat", "Tidak Diketahui"),
   ("fiber", "Tidak Diketahui"), ("vitamins", "Tidak Diketahui")]

/-- The heuristic template `analysis` dict (`main.py` lines 437-449). -/
def default_analysis : Analysis :=
  { food_type := "Makanan Terdeteksi", components := [], nutrition := default_nutrition,
    deficiencies := [], recommendations := [] }

/-- The fixed 3-item default recommendations (`main.py` lines 477-481). -/
def default_recommendations : List String :=
  ["Konsultasi dengan ahli gizi untuk analisis lengkap",
   "Perhatikan porsi dan variasi makanan",
   "Minum air yang cukup sepanjang hari"]

/-- One iteration of the `for line in lines` loop of
`parse_mistral_response` (`main.py` lines 452-473): strip the line, skip
it if blank, switch section on a keyword, or append a bullet item to the
current section's list. -/
def scan_step (st : Analysis × SectionState) (rawLine : String) : Analysis × SectionState :=
  let line := pyStrip rawLine
  if line = "" then st
  else if strContains (pyLower line) "komponen" || strContains (pyLower line) "bahan" then
    (st.1, SectionState.components)
  else if strContains (pyLower line) "gizi" || strContains (pyLower line) "nutrisi" then
    (st.1, SectionState.nutrition)
  else if strContains (pyLower line) "kekurangan" then
    (st.1, SectionState.deficiencies)
  else if strContains (pyLower line) "rekomendasi" || strContains (pyLower line) "saran" then
    (st.1, SectionState.recommendations)
  else if strStartsWith line "-" || strStartsWith line "•" then
    let item := pyStrip (strDrop line 1)
    if st.2 = SectionState.components ∧ item ≠ "" then
      ({ st.1 with components := st.1.components ++ [item] }, st.2)
    else if st.2 = SectionState.deficiencies ∧ item ≠ "" then
      ({ st.1 with deficiencies := st.1.deficiencies ++ [item] }, st.2)
    else if st.2 = SectionState.recommendations ∧ item ≠ "" then
      ({ st.1 with recommendations := st.1.recommendations ++ [item] }, st.2)
    else st
  else st

/-- The heuristic line scan of `parse_mistral_response` before the default
fill: split on newlines and fold the loop body over the lines. -/
def parse_fallback_scan (response_text : String) : Analysis × SectionState :=
  (pySplitLines response_text).foldl scan_step (default_analysis, SectionState.none)

/-- The heuristic branch of `parse_mistral_response`, including the final
default fill for empty `recommendations` (`main.py` lines 436-483). -/
def parse_fallback (response_text : String) : Analysis :=
  let a := (parse_fallback_scan response_text).1
  if a.recommendations = [] then { a with recommendations := default_recommendations } else a

/-- The heuristic `analysis` dict as the Python dict value it denotes
(field order as constructed in the source). -/
def analysisToJ (a : Analysis) : J :=
  J.obj [("food_type", J.str a.food_type),
         ("components", J.arr (a.components.map J.str)),
         ("nutrition", J.obj (a.nutrition.map (fun kv => (kv.1, J.str kv.2)))),
         ("deficiencies", J.arr (a.deficiencies.map J.str)),
         ("recommendations", J.arr (a.recommendations.map J.str))]

/-- `parse_mistral_response` (`main.py` lines 426-483): if the stripped
text starts with a brace, try `json.loads` and return the decoded value
as-is; on decode failure or non-JSON-shaped text, run the heuristic line
scan. -/
def parse_mistral_response (response_text : String) : J :=
  if strStartsWith (pyStrip response_text) "\x7b" then
    match json_loads response_text with
    | some j => j
    | none => analysisToJ (parse_fallback response_text)
  else analysisToJ (parse_fallback response_text)

/-- One raw box as returned by the YOLO model call (the model is a black
box; its per-box confidence, class id, and integer-truncated corner
coordinates are taken as inputs).  Confidences are modelled as rationals
in place of Python floats. -/
structure RawBox where
  conf : ℚ
  cls : Nat
  xyxy : List Int
deriving DecidableEq

/-- One entry of the `detections` list built in `detect_food_optimized`
(`yolo_detector.py` lines 98-103). -/
structure Detection where
  label : String
  confidence : ℚ
  bbox : List Int
  class_id : Nat
deriving DecidableEq

/-- The confidence threshold passed to the model call inside
`detect_food_optimized` (`conf=0.2`, line 72). -/
def MODEL_CALL_CONF : ℚ := 2 / 10

/-- The post-loop skip threshold of `detect_food_optimized`
(`if confidence < 0.15: continue`, line 92). -/
def POST_FILTER_CONF : ℚ := 15 / 100

/-- The detection cap passed to the model call inside
`detect_food_optimized` (`max_det=8`, line 77). -/
def MODEL_CALL_MAX_DET : Nat := 8

/-- Build one `detection` dict from a raw box (`yolo_detector.py` lines
87-103); `names` is the model's class-id-to-label table. -/
def mkDet (names : Nat → String) (b : RawBox) : Detection :=
  { label := names b.cls, confidence := b.conf, bbox := b.xyxy, class_id := b.cls }

/-- The `detections` list accumulated by the box loop of
`detect_food_optimized`: boxes below `0.15` are skipped, the rest are
appended in model order. -/
def keptDetections (names : Nat → String) : List RawBox → List Detection
  | [] => []
  | b :: bs =>
    if b.conf < POST_FILTER_CONF then keptDetections names bs
    else mkDet names b :: keptDetections names bs

/-- Python `set.add`, modelled on an insertion-ordered duplicate-free
list (Python set iteration order is unspecified; every property proved
about `detected_foods` is order-insensitive). -/
def setAdd (l : List String) (x : String) : List String :=
  if x ∈ l then l else l ++ [x]

/-- The `detected_foods` set accumulated by the same box loop. -/
def foodsAux (names : Nat → String) (acc : List String) : List RawBox → List String
  | [] => acc
  | b :: bs =>
    if b.conf < POST_FILTER_CONF then foodsAux names acc bs
    else foodsAux names (setAdd acc (names b.cls)) bs

/-- Insert a detection in front of the first element whose confidence is
not larger, modelling one step of Python's stable
`sort(key=confidence, reverse=True)`. -/
def insertByConfDesc (d : Detection) : List Detection → List Detection
  | [] => [d]
  | e :: es =>
    if e.confidence ≤ d.confidence then d :: e :: es else e :: insertByConfDesc d es

/-- Stable descending-by-confidence sort, modelling
`detections.sort(key=lambda x: x["confidence"], reverse=True)`
(`yolo_detector.py` line 109). -/
def sortByConfDesc : List Detection → List Detection
  | [] => []
  | d :: ds => insertByConfDesc d (sortByConfDesc ds)

/-- The result dict of the detector functions.  The success dict of the
source also carries `processing_time`/`image_size` (wall-clock and pixel
metadata, not modelled); `error` is the key present only in
`empty_result`. -/
structure DetectResult where
  detected_foods : List String
  detections : List Detection
  total_detections : Nat
  error : Option String
deriving DecidableEq

/-- `empty_result` (`yolo_detector.py` lines 162-170). -/
def empty_result (error_msg : String) : DetectResult :=
  { detected_foods := [], detections := [], total_detections := 0, error := some error_msg }

/-- `detect_food_optimized` (`yolo_detector.py` lines 49-123).  `decoded`
is the outcome of `cv2.imread`: `none` when the image cannot be read
(the function returns `empty_result` instead of raising), otherwise the
raw boxes the model call returns for the (possibly resized) image. -/
def detect_food_optimized (names : Nat → String) (decoded : Option (List RawBox)) : DetectResult :=
  match decoded with
  | none => empty_result "Cannot read image"
  | some boxes =>
    let dets := sortByConfDesc (keptDetections names boxes)
    { detected_foods := foodsAux names [] boxes,
      detections := dets,
      total_detections := dets.length,
      error := none }

/-- `detect_food_ultrafast` (`yolo_detector.py` lines 125-160): collects
the unique labels of the boxes but returns an empty `detections` list;
`decoded` is `none` when the grayscale read fails, otherwise the class
ids of the boxes the minimal model call returns.  (The source dict also
carries the literal `processing_time`/`mode` strings, not modelled.) -/
def detect_food_ultrafast (names : Nat → String) (decoded : Option (List Nat)) : DetectResult :=
  match decoded with
  | none => empty_result "Cannot read image"
  | some clsIds =>
    let foods := clsIds.foldl (fun acc cls_id => setAdd acc (names cls_id)) []
    { detected_foods := foods, detections := [], total_detections := foods.length, error := none }

/-- `detect_food_with_details` (`yolo_detector.py` lines 189-190). -/
def detect_food_with_details (names : Nat → String) (decoded : Option (List RawBox)) : DetectResult :=
  detect_food_optimized names decoded

/-- Python truthiness of the `MISTRAL_KEY` module global
(`os.getenv` result): `None` and the empty string are falsy. -/
def keyTruthy : Option String → Bool
  | Option.none => false
  | Option.some s => !s.isEmpty

/-- `get_fallback_response` (`mistral_service.py` lines 96-114): the
`json.dumps` text of the canned payload, with the default
`", "`/`": "` separators and source key order. -/
def get_fallback_response : String :=
  "\x7b\"food_type\": \"Makanan Terdeteksi\", \"components\": [\"Analisis cepat\"], " ++
  "\"nutrition\": \x7b\"protein\": \"Cukup\", \"carbs\": \"Cukup\", \"fat\": \"Cukup\", " ++
  "\"fiber\": \"Cukup\", \"vitamins\": \"Cukup\"\x7d, " ++
  "\"deficiencies\": [\"Perlu analisis lebih detail\"], " ++
  "\"recommendations\": [\"Konsumsi makanan seimbang\", \"Perbanyak buah dan sayuran\", " ++
  "\"Minum air yang cukup\"]\x7d"

/-- Observable outcome of the single `session.post` of
`ask_mistral_async` for one call: a timeout, some other network failure,
or a response with an HTTP status and a body (`none` body models
`response.json()` failing to decode). -/
inductive ApiOutcome where
  | timeout : ApiOutcome
  | netError (msg : String) : ApiOutcome
  | response (status : Nat) (body : Option J) : ApiOutcome

/-- The subscript chain `data["choices"][0]["message"]["content"]`
(`mistral_service.py` line 49); `none` models the
`KeyError`/`IndexError`/`TypeError` raised when the shape differs, which
the caller's `except` absorbs. -/
def extract_content (data : J) : Option J :=
  match jLookup data "choices" with
  | some (J.arr (c0 :: _)) =>
    match jLookup c0 "message" with
    | some m => jLookup m "content"
    | Option.none => none
  | _ => none

/-- `ask_mistral_async` (`mistral_service.py` lines 21-56).  Returns the
text the caller receives together with a flag recording whether the HTTP
request was issued.  Every failure branch (timeout, network error,
undecodable body, unexpected body shape) is caught in the source and
mapped to the fallback text; the HTTP status is never inspected. -/
def ask_mistral_async (key : Option String) (prompt : String) (outcome : ApiOutcome) : J × Bool :=
  if keyTruthy key = false then (J.str get_fallback_response, false)
  else
    match outcome with
    | ApiOutcome.timeout => (J.str get_fallback_response, true)
    | ApiOutcome.netError _ => (J.str get_fallback_response, true)
    | ApiOutcome.response _ Option.none => (J.str get_fallback_response, true)
    | ApiOutcome.response _ (Option.some body) =>
      match extract_content body with
      | some v => (v, true)
      | Option.none => (J.str get_fallback_response, true)

/-- `ask_mistral` (`mistral_service.py` lines 58-70): re-checks the key,
obtains an event loop and runs the async variant to completion on it.
`loopRunning` says whether an event loop is already running in the
calling thread — true at every call site in `main.py`'s `async def`
handlers.  In that case `asyncio.get_event_loop()` returns the running
loop (the `except RuntimeError` fallback is not taken) and
`loop.run_until_complete` raises `RuntimeError` before the coroutine is
driven, so no HTTP request is issued; only with no running loop does the
wrapper return the coroutine's value.  The fallback-on-falsy-key return
happens before any event-loop code. -/
def ask_mistral (key : Option String) (loopRunning : Bool) (prompt : String)
    (outcome : ApiOutcome) : Except String (J × Bool) :=
  if keyTruthy key = false then Except.ok (J.str get_fallback_response, false)
  else if loopRunning then Except.error "This event loop is already running"
  else Except.ok (ask_mistral_async key prompt outcome)

/-- Observable outcome of the probe request of `test_mistral_connection`:
either it completes without raising, or some exception is raised
(`requests` errors, the 5s timeout, and `raise_for_status()` on a
non-2xx status all raise and carry a message). -/
inductive ProbeOutcome where
  | ok : ProbeOutcome
  | exn (msg : String) : ProbeOutcome

/-- `test_mistral_connection` (`mistral_service.py` lines 72-94), paired
with a flag recording whether the probe request was issued. -/
def test_mistral_connection (key : Option String) (outcome : ProbeOutcome) :
    (String × String) × Bool :=
  if keyTruthy key = false then (("disabled", "MISTRAL_API_KEY not set"), false)
  else
    match outcome with
    | ProbeOutcome.ok => (("connected", "Mistral AI connection successful"), true)
    | ProbeOutcome.exn m => (("error", "Mistral AI connection failed: " ++ m), true)

/-- Model of the Python format spec `:.2f` applied to a confidence
(round-half-up on the rational model; confidences are non-negative). -/
def confFmt (c : ℚ) : String :=
  let n : Int := Int.floor (c * 100 + 1 / 2)
  let whole : Int := n / 100
  let frac : Int := n % 100
  toString whole ++ "." ++ (if frac < 10 then "0" else "") ++ toString frac

/-- One line of `detection_details` (`nutrition_advisor.py` line 14). -/
def detailLine (det : Detection) : String :=
  "- " ++ det.label ++ " (confidence: " ++ confFmt det.confidence ++ ")\n"

/-- `build_comprehensive_prompt` (`nutrition_advisor.py` lines 1-63),
with the f-string transcribed verbatim (`\x7b`/`\x7d` denote literal
braces). -/
def build_comprehensive_prompt (food_list : List String) (detections : List Detection) : String :=
  let food_list2 := if food_list.isEmpty then ["Tidak ada makanan terdeteksi"] else food_list
  let food_str := String.intercalate ", " food_list2
  let detection_details :=
    if detections.isEmpty then ""
    else "\nDetail deteksi:\n" ++ String.join ((detections.take 5).map detailLine)
  "\nANALISIS MAKANAN DAN NUTRISI - FORMAT JSON\n\nData Input:\nMakanan yang terdeteksi: " ++
  food_str ++ "\n" ++ detection_details ++ "\n\nTugas Anda sebagai ahli gizi:\n" ++
  "1. ANALISIS JENIS MAKANAN:\n" ++
  "   - Klasifikasikan jenis makanan (berat/ringan/tradisional/modern)\n" ++
  "   - Identifikasi komponen bahan utama\n\n" ++
  "2. ANALISIS KANDUNGAN GIZI:\n" ++
  "   - Protein: estimasi tingkat (tinggi/sedang/rendah)\n" ++
  "   - Karbohidrat: estimasi tingkat (tinggi/sedang/rendah) \n" ++
  "   - Lemak: estimasi tingkat (tinggi/sedang/rendah)\n" ++
  "   - Serat: estimasi tingkat (tinggi/sedang/rendah)\n" ++
  "   - Vitamin & Mineral: identifikasi yang dominan\n\n" ++
  "3. IDENTIFIKASI KEKURANGAN:\n" ++
  "   - Deteksi potensi kekurangan gizi\n" ++
  "   - Analisis ketidakseimbangan nutrisi\n\n" ++
  "4. REKOMENDASI:\n" ++
  "   - Saran makanan pendamping untuk gizi seimbang\n" ++
  "   - Rekomendasi porsi yang tepat\n" ++
  "   - Tips penyajian yang lebih sehat\n\n" ++
  "FORMAT OUTPUT (JSON):\n\x7b\n" ++
  "    \"food_type\": \"string (jenis makanan)\",\n" ++
  "    \"components\": [\"array\", \"komponen\", \"bahan\"],\n" ++
  "    \"nutrition\": \x7b\n" ++
  "        \"protein\": \"string (tinggi/sedang/rendah)\",\n" ++
  "        \"carbs\": \"string (tinggi/sedang/rendah)\",\n" ++
  "        \"fat\": \"string (tinggi/sedang/rendah)\", \n" ++
  "        \"fiber\": \"string (tinggi/sedang/rendah)\",\n" ++
  "        \"vitamins\": \"string (jenis vitamin dominan)\"\n" ++
  "    \x7d,\n" ++
  "    \"deficiencies\": [\"array\", \"kekurangan\", \"gizi\"],\n" ++
  "    \"recommendations\": [\"array\", \"rekomendasi\", \"saran\"]\n\x7d\n\n" ++
  "Hanya kembalikan data JSON, tanpa penjelasan tambahan.\n" ++
  "Analisis dalam konteks makanan Indonesia dan internasional.\n"

/-- The JSON body of the 200 response of `/predict`
(`main.py` lines 73-81). -/
structure PredictResponse where
  success : Bool
  filename : String
  detected_foods : List String
  detections : List Detection
  nutrition_analysis : J
  analysis_source : String
  message : String

/-- The `/predict` handler (`main.py` lines 34-85).  File-system and
UUID plumbing is not modelled; `decoded` is the `cv2.imread` outcome for
the saved upload and `key`/`outcome` drive the Mistral call.  The paired
`Bool` records whether the Mistral HTTP request was issued.  `predict`
is an `async def` handler, so when it calls the blocking `ask_mistral`
the server's event loop is running: `ask_mistral` is invoked with
`loopRunning = true`, and the `RuntimeError` it raises whenever a key is
configured is caught by the handler's `except Exception` clause and
re-raised as HTTP 500.  The other raise paths also deliver 500: the
handler's own `HTTPException(400)` for a missing filename is swallowed
by the same clause and re-raised as 500, and a non-string value returned
by the ask path (possible when the response body nests a non-string
`content`) makes `parse_mistral_response`'s `.strip()` raise, which the
clause turns into a 500 as well. -/
def predict (filename : String) (names : Nat → String) (decoded : Option (List RawBox))
    (key : Option String) (outcome : ApiOutcome) : Except Nat (PredictResponse × Bool) :=
  if filename = "" then Except.error 500
  else
    let detection_result := detect_food_with_details names decoded
    let detected_foods := detection_result.detected_foods
    let detections := detection_result.detections
    let prompt := build_comprehensive_prompt detected_foods detections
    match ask_mistral key true prompt outcome with
    | Except.error _ => Except.error 500
    | Except.ok askR =>
      match askR.1 with
      | J.str advice_text =>
        Except.ok
          ({ success := true,
             filename := filename,
             detected_foods := detected_foods,
             detections := detections,
             nutrition_analysis := parse_mistral_response advice_text,
             analysis_source := "Mistral AI",
             message := "Successfully detected " ++ toString detected_foods.length ++ " food items" },
           askR.2)
      | _ => Except.error 500

/-- Projection: the `analysis_source` field of a successful `/predict`
response. -/
def predict_source : Except Nat (PredictResponse × Bool) → Option String
  | Except.ok r => some r.1.analysis_source
  | Except.error _ => none

/-- Projection: whether a successful `/predict` request issued the
Mistral HTTP call. -/
def predict_invoked : Except Nat (PredictResponse × Bool) → Option Bool
  | Except.ok r => some r.2
  | Except.error _ => none

/-- Projection: the `detected_foods` field of a successful `/predict`
response. -/
def predict_foods : Except Nat (PredictResponse × Bool) → Option (List String)
  | Except.ok r => some r.1.detected_foods
  | Except.error _ => none

/-- Projection: the `success` field of a successful `/predict`
response. -/
def predict_success : Except Nat (PredictResponse × Bool) → Option Bool
  | Except.ok r => some r.1.success
  | Except.error _ => none

/-- A concrete class-name table for closed instances. -/
def anyNames : Nat → String :=
  fun _ => "pizza"

/-- All elements are JSON strings. -/
def isStrList : List J → Bool
  | [] => true
  | J.str _ :: r => isStrList r
  | _ => false

/-- All values are JSON strings. -/
def isStrFields : List (String × J) → Bool
  | [] => true
  | (_, J.str _) :: r => isStrFields r
  | _ => false

/-- A decoded value matches the nutrition schema requested from the LLM
(`nutrition_advisor.py` lines 44-57): the five top-level fields with
string, string-array and string-valued-object shapes. -/
def isNutritionSchema (j : J) : Bool :=
  match jLookup j "food_type", jLookup j "components", jLookup j "nutrition",
        jLookup j "deficiencies", jLookup j "recommendations" with
  | some (J.str _), some (J.arr cs), some (J.obj nv), some (J.arr ds), some (J.arr rs) =>
    isStrList cs && isStrFields nv && isStrList ds && isStrList rs
  | _, _, _, _, _ => false

/-- Membership through one stable-insert step. -/
theorem mem_insertByConfDesc (x d : Detection) (l : List Detection) :
    x ∈ insertByConfDesc d l ↔ x = d ∨ x ∈ l := by
  induction l with
  | nil => simp [insertByConfDesc]
  | cons e es ih =>
    simp only [insertByConfDesc]
    split
    · simp [List.mem_cons]
    · simp only [List.mem_cons, ih]
      tauto

/-- The stable sort neither adds nor removes detections. -/
theorem mem_sortByConfDesc (x : Detection) (l : List Detection) :
    x ∈ sortByConfDesc l ↔ x ∈ l := by
  induction l with
  | nil => simp [sortByConfDesc]
  | cons d ds ih => simp [sortByConfDesc, mem_insertByConfDesc, ih]

/-- Stable insertion preserves descending-by-confidence sortedness. -/
theorem pairwise_insertByConfDesc (d : Detection) (l : List Detection)
    (h : l.Pairwise (fun a b => b.confidence ≤ a.confidence)) :
    (insertByConfDesc d l).Pairwise (fun a b => b.confidence ≤ a.confidence) := by
  induction l with
  | nil => simp [insertByConfDesc]
  | cons e es ih =>
    rcases List.pairwise_cons.mp h with ⟨he, hes⟩
    simp only [insertByConfDesc]
    split
    · rename_i hle
      refine List.pairwise_cons.mpr ⟨?_, h⟩
      intro b hb
      rcases List.mem_cons.mp hb with rfl | hb2
      · exact hle
      · exact le_trans (he b hb2) hle
    · rename_i hgt
      push_neg at hgt
      refine List.pairwise_cons.mpr ⟨?_, ih hes⟩
      intro b hb
      rcases (mem_insertByConfDesc b d es).mp hb with rfl | hb2
      · exact le_of_lt hgt
      · exact he b hb2

/-- The sorted detections list is descending by confidence. -/
theorem pairwise_sortByConfDesc (l : List Detection) :
    (sortByConfDesc l).Pairwise (fun a b => b.confidence ≤ a.confidence) := by
  induction l with
  | nil => simp [sortByConfDesc]
  | cons d ds ih => exact pairwise_insertByConfDesc d _ ih

/-- Inserting commutes with restricting to one confidence class: the
new element surfaces in front of its own class and no other class
moves. -/
theorem filter_insertByConfDesc (c : ℚ) (d : Detection) (l : List Detection) :
    (insertByConfDesc d l).filter (fun x => decide (x.confidence = c)) =
      if d.confidence = c then d :: l.filter (fun x => decide (x.confidence = c))
      else l.filter (fun x => decide (x.confidence = c)) := by
  induction l with
  | nil =>
    by_cases h : d.confidence = c <;> simp [insertByConfDesc, h]
  | cons e es ih =>
    simp only [insertByConfDesc]
    split
    · rename_i hle
      by_cases h : d.confidence = c <;> simp [List.filter_cons, h]
    · rename_i hgt
      push_neg at hgt
      by_cases h : d.confidence = c
      · have he : ¬ (e.confidence = c) := by
          intro hec
          rw [hec, ← h] at hgt
          exact lt_irrefl _ hgt
        simp [List.filter_cons, h, he, ih]
      · by_cases he : e.confidence = c <;> simp [List.filter_cons, h, he, ih]

/-- Ties keep their original order: for every confidence value, the
stable sort leaves that confidence class unchanged. -/
theorem filter_sortByConfDesc (c : ℚ) (l : List Detection) :
    (sortByConfDesc l).filter (fun x => decide (x.confidence = c)) =
      l.filter (fun x => decide (x.confidence = c)) := by
  induction l with
  | nil => rfl
  | cons d ds ih =>
    simp only [sortByConfDesc, filter_insertByConfDesc, ih]
    by_cases h : d.confidence = c <;> simp [List.filter_cons, h]

/-- The accumulated `detections` list is the below-threshold filter of
the per-box conversion, in model order. -/
theorem keptDetections_eq (names : Nat → String) (boxes : List RawBox) :
    keptDetections names boxes =
      (boxes.filter (fun b => !decide (b.conf < POST_FILTER_CONF))).map (mkDet names) := by
  induction boxes with
  | nil => rfl
  | cons b bs ih =>
    simp only [keptDetections, List.filter_cons]
    by_cases h : b.conf < POST_FILTER_CONF <;> simp [h, ih]

/-- Membership in the modelled Python `set.add`. -/
theorem mem_setAdd (x y : String) (l : List String) :
    x ∈ setAdd l y ↔ x = y ∨ x ∈ l := by
  unfold setAdd
  split
  · rename_i h
    constructor
    · exact fun hx => Or.inr hx
    · rintro (rfl | hx)
      · exact h
      · exact hx
  · simp only [List.mem_append, List.mem_singleton]
    tauto

/-- The `detected_foods` accumulator collects exactly the labels of the
kept detections (plus whatever it started with). -/
theorem mem_foodsAux (names : Nat → String) (boxes : List RawBox) :
    ∀ (acc : List String) (x : String),
      x ∈ foodsAux names acc boxes ↔
        x ∈ acc ∨ x ∈ (keptDetections names boxes).map Detection.label := by
  induction boxes with
  | nil =>
    intro acc x
    simp [foodsAux, keptDetections]
  | cons b bs ih =>
    intro acc x
    simp only [foodsAux, keptDetections]
    by_cases h : b.conf < POST_FILTER_CONF
    · simp only [if_pos h, ih]
    · simp only [if_neg h, ih, mem_setAdd, List.map_cons, List.mem_cons, mkDet]
      tauto

/-- If the optimized detector reports no foods then its detections list
is empty as well. -/
theorem foods_nil_detections_nil (names : Nat → String) (boxes : List RawBox)
    (h : (detect_food_optimized names (some boxes)).detected_foods = []) :
    (detect_food_optimized names (some boxes)).detections = [] := by
  simp only [detect_food_optimized] at h ⊢
  have hkept : keptDetections names boxes = [] := by
    cases hk : keptDetections names boxes with
    | nil => rfl
    | cons d ds =>
      exfalso
      have hd : d.label ∈ foodsAux names [] boxes := by
        rw [mem_foodsAux]
        exact Or.inr (by rw [hk]; simp)
      rw [h] at hd
      exact (List.not_mem_nil _ ) hd
  rw [hkept]
  rfl

/-- With a truthy key the async client always issues the HTTP request. -/
theorem ask_mistral_async_snd (key : Option String) (prompt : String) (outcome : ApiOutcome)
    (h : keyTruthy key = true) : (ask_mistral_async key prompt outcome).2 = true := by
  unfold ask_mistral_async
  rw [h]
  cases outcome with
  | timeout => rfl
  | netError m => rfl
  | response st body =>
    cases body with
    | none => rfl
    | some b =>
      simp only [Bool.true_eq_false, if_false]
      cases hx : extract_content b <;> simp [hx]

/-- C4, counterexample: the post-filter threshold (0.15) is lower, not
stricter, than the pre-filter threshold supplied to the model (0.2) — a
box at confidence 0.17 survives the post-filter — and the post-filter
applies no count cap of its own: nine raw boxes yield nine detections,
above the `max_det=8` cap that only the model call enforces. -/
theorem C4_postfilter_counterexample :
    POST_FILTER_CONF < MODEL_CALL_CONF
    ∧ (detect_food_optimized anyNames (some [⟨17/100, 0, [0, 0, 1, 1]⟩])).detections.length = 1
    ∧ (detect_food_optimized anyNames
        (some (List.replicate 9 ⟨3/10, 0, [0, 0, 1, 1]⟩))).detections.length = 9
    ∧ MODEL_CALL_MAX_DET < 9 := by
  have h17 : ¬ ((17:ℚ)/100 < POST_FILTER_CONF) := by norm_num [POST_FILTER_CONF]
  have h3 : ¬ ((3:ℚ)/10 < POST_FILTER_CONF) := by norm_num [POST_FILTER_CONF]
  refine ⟨?_, ?_, ?_, ?_⟩
  · norm_num [POST_FILTER_CONF, MODEL_CALL_CONF]
  · simp [detect_food_optimized, keptDetections, sortByConfDesc, insertByConfDesc, mkDet, h17]
  · simp [detect_food_optimized, keptDetections, sortByConfDesc, insertByConfDesc, mkDet, h3,
      List.replicate]
  · decide

/-- C4 (amended): the detections returned by `detect_food_optimized` are
exactly the raw boxes with confidence at or above the 0.15 post-filter
threshold (a threshold looser than the 0.2 `conf` supplied to the model
call), sorted descending by confidence with ties kept in original
detection order; the count cap (`max_det=8`) is enforced by the model
call, not by this post-processing. -/
theorem C4_postfilter_amended :
    ∀ (names : Nat → String) (boxes : List RawBox),
      ((detect_food_optimized names (some boxes)).detections.Pairwise
        (fun a b => b.confidence ≤ a.confidence))
      ∧ (∀ d ∈ (detect_food_optimized names (some boxes)).detections,
          POST_FILTER_CONF ≤ d.confidence)
      ∧ (∀ c : ℚ,
          (detect_food_optimized names (some boxes)).detections.filter
              (fun d => decide (d.confidence = c)) =
            ((boxes.filter (fun b => !decide (b.conf < POST_FILTER_CONF))).map
                (mkDet names)).filter (fun d => decide (d.confidence = c))) := by
  intro names boxes
  have hdet : (detect_food_optimized names (some boxes)).detections
      = sortByConfDesc (keptDetections names boxes) := rfl
  refine ⟨?_, ?_, ?_⟩
  · rw [hdet]
    exact pairwise_sortByConfDesc _
  · intro d hd
    rw [hdet, mem_sortByConfDesc, keptDetections_eq] at hd
    rcases List.mem_map.mp hd with ⟨b, hb, rfl⟩
    rcases List.mem_filter.mp hb with ⟨_, hcond⟩
    simp only [Bool.not_eq_true', decide_eq_false_iff_not, not_lt] at hcond
    exact hcond
  · intro c
    rw [hdet, filter_sortByConfDesc, keptDetections_eq]

/-- C4, witness: the retention bound of the amended theorem applied to a
concrete box of confidence 0.3. -/
theorem C4_postfilter_amended_witness :
    POST_FILTER_CONF ≤ (mkDet anyNames ⟨3/10, 0, [0, 0, 1, 1]⟩).confidence :=
  (C4_postfilter_amended anyNames [⟨3/10, 0, [0, 0, 1, 1]⟩]).2.1
    (mkDet anyNames ⟨3/10, 0, [0, 0, 1, 1]⟩)
    (by
      have h3 : ¬ ((3:ℚ)/10 < POST_FILTER_CONF) := by norm_num [POST_FILTER_CONF]
      simp [detect_food_optimized, keptDetections, sortByConfDesc, insertByConfDesc, mkDet, h3])

/-- C6, counterexample: `detect_food_ultrafast` returns a detection
result whose `detected_foods` contains "pizza" while its `detections`
list is empty, so `detected_foods` is not the unique-label projection of
`detections` for this detector function. -/
theorem C6_ultrafast_counterexample :
    (detect_food_ultrafast anyNames (some [0])).detected_foods = ["pizza"]
    ∧ (detect_food_ultrafast anyNames (some [0])).detections = []
    ∧ ¬ ("pizza" ∈ (detect_food_ultrafast anyNames (some [0])).detections.map Detection.label) := by
  refine ⟨rfl, rfl, ?_⟩
  intro h
  simp only [List.map] at h
  exact (List.not_mem_nil _) h

/-- C6 (amended): for `detect_food_optimized` — the detector the
pipeline uses — `detected_foods` always equals, as a set, the unique
labels appearing in `detections`; the invariant does not extend to
`detect_food_ultrafast`, whose `detections` list is always empty. -/
theorem C6_optimized_unique_labels_amended :
    ∀ (names : Nat → String) (decoded : Option (List RawBox)) (lab : String),
      lab ∈ (detect_food_optimized names decoded).detected_foods ↔
        lab ∈ (detect_food_optimized names decoded).detections.map Detection.label := by
  intro names decoded lab
  cases decoded with
  | none => simp [detect_food_optimized, empty_result]
  | some boxes =>
    have h1 : (detect_food_optimized names (some boxes)).detected_foods
        = foodsAux names [] boxes := rfl
    have h2 : (detect_food_optimized names (some boxes)).detections
        = sortByConfDesc (keptDetections names boxes) := rfl
    rw [h1, h2, mem_foodsAux]
    simp only [List.not_mem_nil, false_or]
    constructor
    · intro h
      rcases List.mem_map.mp h with ⟨d, hd, rfl⟩
      exact List.mem_map.mpr ⟨d, (mem_sortByConfDesc d _).mpr hd, rfl⟩
    · intro h
      rcases List.mem_map.mp h with ⟨d, hd, rfl⟩
      exact List.mem_map.mpr ⟨d, (mem_sortByConfDesc d _).mp hd, rfl⟩

/-- C5, counterexample: `ask_mistral_async` never inspects the HTTP
status, so a non-2xx response whose JSON body carries the expected
`choices[0].message.content` shape has its content returned instead of
the canned fallback text, contradicting the claim that every non-2xx
status maps to the fallback. -/
theorem C5_status_ignored_counterexample :
    (ask_mistral_async (some "k") "p"
        (ApiOutcome.response 500
          (some (J.obj [("choices",
            J.arr [J.obj [("message", J.obj [("content", J.str "oops")])]])])))).1
      = J.str "oops"
    ∧ ("oops" : String) ≠ get_fallback_response := by
  refine ⟨rfl, ?_⟩
  decide

/-- C5 (amended): `ask_mistral_async` is total (never raises to its
caller); timeouts, network errors, undecodable response bodies, and
bodies lacking the `choices[0].message.content` shape — which includes
the error bodies real non-2xx responses carry — all return the canned
fallback text, and the only other possible result is the content
extracted from a decodable response body, regardless of its HTTP
status. -/
theorem C5_ask_failsoft_amended :
    ∀ (key : Option String) (prompt : String),
      ((ask_mistral_async key prompt ApiOutcome.timeout).1 = J.str get_fallback_response)
      ∧ (∀ m, (ask_mistral_async key prompt (ApiOutcome.netError m)).1
          = J.str get_fallback_response)
      ∧ (∀ st, (ask_mistral_async key prompt (ApiOutcome.response st none)).1
          = J.str get_fallback_response)
      ∧ (∀ st body, extract_content body = none →
          (ask_mistral_async key prompt (ApiOutcome.response st (some body))).1
            = J.str get_fallback_response)
      ∧ (∀ outcome, (ask_mistral_async key prompt outcome).1 = J.str get_fallback_response
          ∨ ∃ st body v, outcome = ApiOutcome.response st (some body)
              ∧ extract_content body = some v
              ∧ (ask_mistral_async key prompt outcome).1 = v) := by
  intro key prompt
  cases hk : keyTruthy key with
  | false =>
    refine ⟨?_, ?_, ?_, ?_, ?_⟩ <;> intros <;> simp [ask_mistral_async, hk]
  | true =>
    refine ⟨?_, ?_, ?_, ?_, ?_⟩
    · simp [ask_mistral_async, hk]
    · intro m
      simp [ask_mistral_async, hk]
    · intro st
      simp [ask_mistral_async, hk]
    · intro st body hb
      simp [ask_mistral_async, hk, hb]
    · intro outcome
      cases outcome with
      | timeout => exact Or.inl (by simp [ask_mistral_async, hk])
      | netError m => exact Or.inl (by simp [ask_mistral_async, hk])
      | response st body =>
        cases body with
        | none => exact Or.inl (by simp [ask_mistral_async, hk])
        | some b =>
          cases hx : extract_content b with
          | none => exact Or.inl (by simp [ask_mistral_async, hk, hx])
          | some v => exact Or.inr ⟨st, b, v, rfl, hx, by simp [ask_mistral_async, hk, hx]⟩

/-- C5, witness: the body-shape clause of the amended theorem applied to
a 404 response whose body is `null`. -/
theorem C5_ask_failsoft_amended_witness :
    (ask_mistral_async (some "k") "p" (ApiOutcome.response 404 (some J.null))).1
      = J.str get_fallback_response :=
  (C5_ask_failsoft_amended (some "k") "p").2.2.2.1 404 J.null rfl

/-- C7 (confirmed): with no credential configured (unset or empty
`MISTRAL_API_KEY`), both ask variants return the fallback payload
without issuing any HTTP request — the blocking wrapper returns it
before touching any event-loop code, so it does not raise even when a
loop is already running — and the connectivity probe reports `disabled`
without issuing its request; the absent credential can never crash
startup or a request. -/
theorem C7_no_credential_degrades :
    ∀ (key : Option String), keyTruthy key = false →
      ∀ (loopRunning : Bool) (prompt : String) (outcome : ApiOutcome) (poutcome : ProbeOutcome),
        ask_mistral_async key prompt outcome = (J.str get_fallback_response, false)
        ∧ ask_mistral key loopRunning prompt outcome
            = Except.ok (J.str get_fallback_response, false)
        ∧ test_mistral_connection key poutcome
            = (("disabled", "MISTRAL_API_KEY not set"), false) := by
  intro key hk loopRunning prompt outcome poutcome
  refine ⟨?_, ?_, ?_⟩ <;> simp [ask_mistral_async, ask_mistral, test_mistral_connection, hk]

/-- C7, witness: the no-credential theorem at the unset key, with the
event loop running (the async-handler situation). -/
theorem C7_no_credential_degrades_witness :
    ask_mistral_async none "p" ApiOutcome.timeout = (J.str get_fallback_response, false)
    ∧ ask_mistral none true "p" ApiOutcome.timeout
        = Except.ok (J.str get_fallback_response, false)
    ∧ test_mistral_connection none ProbeOutcome.ok
        = (("disabled", "MISTRAL_API_KEY not set"), false) :=
  C7_no_credential_degrades none rfl true "p" ApiOutcome.timeout ProbeOutcome.ok

/-- C9, counterexample: invoked with a configured key while the event
loop is already running — the situation at every call site in
`main.py`'s async handlers — the blocking wrapper raises `RuntimeError`
instead of returning the async variant's value, so the two variants do
not share identical semantics. -/
theorem C9_sync_async_counterexample :
    ask_mistral (some "k") true "p" ApiOutcome.timeout
      = Except.error "This event loop is already running"
    ∧ ask_mistral_async (some "k") "p" ApiOutcome.timeout = (J.str get_fallback_response, true)
    ∧ ask_mistral (some "k") true "p" ApiOutcome.timeout
      ≠ Except.ok (ask_mistral_async (some "k") "p" ApiOutcome.timeout) := by
  refine ⟨rfl, rfl, ?_⟩
  intro h
  exact Except.noConfusion h

/-- C9 (amended): the blocking wrapper agrees with the async variant
exactly when it can actually drive the coroutine: with no event loop
already running in the calling thread, or with no key configured (both
variants then return the fallback before any event-loop code); with a
key configured and a running loop — the situation at every async-handler
call site — it raises `RuntimeError` instead of returning the async
variant's value. -/
theorem C9_sync_async_amended :
    ∀ (key : Option String) (loopRunning : Bool) (prompt : String) (outcome : ApiOutcome),
      (loopRunning = false →
        ask_mistral key loopRunning prompt outcome
          = Except.ok (ask_mistral_async key prompt outcome))
      ∧ (keyTruthy key = false →
        ask_mistral key loopRunning prompt outcome
          = Except.ok (ask_mistral_async key prompt outcome))
      ∧ (keyTruthy key = true → loopRunning = true →
        ask_mistral key loopRunning prompt outcome
          = Except.error "This event loop is already running") := by
  intro key loopRunning prompt outcome
  refine ⟨?_, ?_, ?_⟩
  · intro hl
    cases hk : keyTruthy key with
    | false => simp [ask_mistral, ask_mistral_async, hk]
    | true => simp [ask_mistral, hk, hl]
  · intro hk
    simp [ask_mistral, ask_mistral_async, hk]
  · intro hk hl
    simp [ask_mistral, hk, hl]

/-- C9, witness: the amended theorem's three clauses at concrete
inputs — keyed call with no running loop, keyless call on a running
loop, and keyed call on a running loop. -/
theorem C9_sync_async_amended_witness :
    ask_mistral (some "k") false "p" ApiOutcome.timeout
      = Except.ok (ask_mistral_async (some "k") "p" ApiOutcome.timeout)
    ∧ ask_mistral none true "p" ApiOutcome.timeout
      = Except.ok (ask_mistral_async none "p" ApiOutcome.timeout)
    ∧ ask_mistral (some "k") true "p" ApiOutcome.timeout
      = Except.error "This event loop is already running" :=
  ⟨(C9_sync_async_amended (some "k") false "p" ApiOutcome.timeout).1 rfl,
   (C9_sync_async_amended none true "p" ApiOutcome.timeout).2.1 rfl,
   (C9_sync_async_amended (some "k") true "p" ApiOutcome.timeout).2.2 rfl rfl⟩

/-- C8 (confirmed): whenever the raw text, after stripping, begins with
a brace and `json.loads` decodes it (in particular when the decoded
value matches the nutrition schema, as hypothesised), the parser returns
the decoded record as-is, so every field of the result equals the
input's field. -/
theorem C8_json_roundtrip :
    ∀ (s : String) (j : J),
      strStartsWith (pyStrip s) "\x7b" = true →
      json_loads s = some j →
      isNutritionSchema j = true →
      parse_mistral_response s = j := by
  intro s j h1 h2 _h3
  simp [parse_mistral_response, h1, h2]

/-- C8, witness: the round-trip theorem applied to a concrete
schema-conforming JSON text. -/
theorem C8_json_roundtrip_witness :
    parse_mistral_response
        ("\x7b\"food_type\": \"Nasi Goreng\", \"components\": [\"nasi\"], " ++
         "\"nutrition\": \x7b\"protein\": \"tinggi\"\x7d, \"deficiencies\": [], " ++
         "\"recommendations\": [\"tambah sayur\"]\x7d")
      = J.obj [("food_type", J.str "Nasi Goreng"),
               ("components", J.arr [J.str "nasi"]),
               ("nutrition", J.obj [("protein", J.str "tinggi")]),
               ("deficiencies", J.arr []),
               ("recommendations", J.arr [J.str "tambah sayur"])] :=
  C8_json_roundtrip
    ("\x7b\"food_type\": \"Nasi Goreng\", \"components\": [\"nasi\"], " ++
     "\"nutrition\": \x7b\"protein\": \"tinggi\"\x7d, \"deficiencies\": [], " ++
     "\"recommendations\": [\"tambah sayur\"]\x7d")
    (J.obj [("food_type", J.str "Nasi Goreng"),
            ("components", J.arr [J.str "nasi"]),
            ("nutrition", J.obj [("protein", J.str "tinggi")]),
            ("deficiencies", J.arr []),
            ("recommendations", J.arr [J.str "tambah sayur"])])
    rfl rfl rfl

/-- C3, counterexample: on the JSON decode path the parser returns the
decoded object as-is, so the input consisting of a bare
`recommendations: []` object yields a result whose recommendations list
is empty — the fixed 3-item default is not applied there. -/
theorem C3_json_path_counterexample :
    parse_mistral_response "\x7b\"recommendations\": []\x7d"
      = J.obj [("recommendations", J.arr [])]
    ∧ jLookup (parse_mistral_response "\x7b\"recommendations\": []\x7d") "recommendations"
      = some (J.arr []) :=
  ⟨rfl, rfl⟩

/-- C3 (amended): on the heuristic (non-JSON) path the parser never
returns an empty recommendations list — whenever the line scan collects
none, the fixed 3-item default list is substituted; the JSON decode path
returns the decoded object unchanged and gives no such guarantee. -/
theorem C3_heuristic_recommendations_amended :
    ∀ s : String,
      (parse_fallback s).recommendations ≠ []
      ∧ ((parse_fallback_scan s).1.recommendations = [] →
          (parse_fallback s).recommendations = default_recommendations) := by
  intro s
  cases hr : (parse_fallback_scan s).1.recommendations with
  | nil =>
    constructor
    · simp [parse_fallback, hr, default_recommendations]
    · intro _
      simp [parse_fallback, hr]
  | cons a l =>
    constructor
    · simp [parse_fallback, hr]
    · intro h
      exact absurd h (by simp)

/-- C3, witness: the default fill of the amended theorem at the empty
input, whose scan collects no recommendations. -/
theorem C3_heuristic_recommendations_amended_witness :
    (parse_fallback "").recommendations = default_recommendations :=
  (C3_heuristic_recommendations_amended "").2 rfl

/-- One scan step never changes `food_type` or the `nutrition`
mapping. -/
theorem scan_step_frame (st : Analysis × SectionState) (line : String) :
    (scan_step st line).1.food_type = st.1.food_type
    ∧ (scan_step st line).1.nutrition = st.1.nutrition := by
  cases st with
  | mk a sec =>
    refine ⟨?_, ?_⟩ <;>
      (simp only [scan_step]; repeat' split) <;> rfl

/-- The whole line scan never changes `food_type` or the `nutrition`
mapping. -/
theorem scan_foldl_frame (lines : List String) :
    ∀ st : Analysis × SectionState,
      (lines.foldl scan_step st).1.food_type = st.1.food_type
      ∧ (lines.foldl scan_step st).1.nutrition = st.1.nutrition := by
  induction lines with
  | nil => intro st; exact ⟨rfl, rfl⟩
  | cons l ls ih =>
    intro st
    simp only [List.foldl_cons]
    constructor
    · rw [(ih (scan_step st l)).1, (scan_step_frame st l).1]
    · rw [(ih (scan_step st l)).2, (scan_step_frame st l).2]

/-- The final default fill never changes `food_type` or the `nutrition`
mapping. -/
theorem parse_fallback_frame (s : String) :
    (parse_fallback s).food_type = (parse_fallback_scan s).1.food_type
    ∧ (parse_fallback s).nutrition = (parse_fallback_scan s).1.nutrition := by
  simp only [parse_fallback]
  split <;> exact ⟨rfl, rfl⟩

/-- C10 (confirmed): the heuristic path only ever modifies the three
bullet lists — `food_type` always equals the fixed default and the
nutrition mapping always equals the five fixed entries — and a bullet
line that is not a section header is discarded (state and record
unchanged) whenever the current section is the initial no-section state
or the nutrition section. -/
theorem C10_heuristic_frame :
    (∀ s : String,
      (parse_fallback s).food_type = "Makanan Terdeteksi"
      ∧ (parse_fallback s).nutrition = default_nutrition)
    ∧ (∀ (a : Analysis) (sec : SectionState) (line : String),
        (sec = SectionState.none ∨ sec = SectionState.nutrition) →
        strContains (pyLower (pyStrip line)) "komponen" = false →
        strContains (pyLower (pyStrip line)) "bahan" = false →
        strContains (pyLower (pyStrip line)) "gizi" = false →
        strContains (pyLower (pyStrip line)) "nutrisi" = false →
        strContains (pyLower (pyStrip line)) "kekurangan" = false →
        strContains (pyLower (pyStrip line)) "rekomendasi" = false →
        strContains (pyLower (pyStrip line)) "saran" = false →
        (strStartsWith (pyStrip line) "-" || strStartsWith (pyStrip line) "•") = true →
        scan_step (a, sec) line = (a, sec)) := by
  constructor
  · intro s
    have h1 := scan_foldl_frame (pySplitLines s) (default_analysis, SectionState.none)
    have h2 := parse_fallback_frame s
    exact ⟨h2.1.trans h1.1, h2.2.trans h1.2⟩
  · intro a sec line hsec h1 h2 h3 h4 h5 h6 h7 hb
    have hne : pyStrip line ≠ "" := by
      intro he
      rw [he] at hb
      exact absurd hb (by decide)
    rcases hsec with rfl | rfl <;>
      simp [scan_step, hne, h1, h2, h3, h4, h5, h6, h7, hb]

/-- C10, witness: a bullet line in the initial no-section state is
discarded. -/
theorem C10_heuristic_frame_witness :
    scan_step (default_analysis, SectionState.none) "- abc"
      = (default_analysis, SectionState.none) :=
  C10_heuristic_frame.2 default_analysis SectionState.none "- abc" (Or.inl rfl)
    rfl rfl rfl rfl rfl rfl rfl rfl

/-- C1, counterexample: a request whose detection yields no foods never
gets `analysis_source = "Fallback"`: with no key configured it still
succeeds with the fixed string "Mistral AI" (the Advice Client function
is invoked and returns its fallback text), and with a key configured the
whole request fails with a 500 — `run_until_complete` raises
`RuntimeError` on the running event loop — so no success payload with
any `analysis_source` is produced at all. -/
theorem C1_empty_detection_counterexample :
    predict_foods (predict "a.jpg" anyNames (some []) none ApiOutcome.timeout) = some []
    ∧ predict_source (predict "a.jpg" anyNames (some []) none ApiOutcome.timeout)
        = some "Mistral AI"
    ∧ some "Mistral AI" ≠ some "Fallback"
    ∧ predict "a.jpg" anyNames (some []) (some "k") ApiOutcome.timeout = Except.error 500 := by
  refine ⟨rfl, rfl, ?_, rfl⟩
  decide

/-- C1 (amended): the `/predict` pipeline has no branch on empty
detections, and no "Fallback" source exists in the handler: for a
request whose detection step yields an empty `detected_foods` list, with
no key configured the request still succeeds with `analysis_source`
fixed at "Mistral AI" (the Advice Client is invoked and returns its
fallback text without a network call), and with a key configured the
request fails with a 500 because the blocking Advice wrapper raises
`RuntimeError` on the running event loop before any Mistral HTTP call
is made. -/
theorem C1_empty_detection_amended :
    ∀ (filename : String) (names : Nat → String) (boxes : List RawBox) (key : Option String)
      (outcome : ApiOutcome),
      filename ≠ "" →
      (detect_food_optimized names (some boxes)).detected_foods = [] →
      (keyTruthy key = false →
        predict_source (predict filename names (some boxes) key outcome) = some "Mistral AI"
        ∧ predict_invoked (predict filename names (some boxes) key outcome) = some false)
      ∧ (keyTruthy key = true →
        predict filename names (some boxes) key outcome = Except.error 500) := by
  intro filename names boxes key outcome hfn hfoods
  have hdets := foods_nil_detections_nil names boxes hfoods
  have hfoods2 : (detect_food_with_details names (some boxes)).detected_foods = [] := hfoods
  have hdets2 : (detect_food_with_details names (some boxes)).detections = [] := hdets
  constructor
  · intro hk
    unfold predict
    rw [if_neg hfn]
    simp only [hfoods2, hdets2]
    simp [ask_mistral, hk, predict_source, predict_invoked]
  · intro hk
    unfold predict
    rw [if_neg hfn]
    simp [ask_mistral, hk]

/-- C1, witness: the amended theorem at a concrete empty-detection
request, in both the keyless and the keyed situation. -/
theorem C1_empty_detection_amended_witness :
    (predict_source (predict "b.jpg" anyNames (some []) none ApiOutcome.timeout)
        = some "Mistral AI"
     ∧ predict_invoked (predict "b.jpg" anyNames (some []) none ApiOutcome.timeout)
        = some false)
    ∧ predict "b.jpg" anyNames (some []) (some "k") ApiOutcome.timeout = Except.error 500 :=
  ⟨(C1_empty_detection_amended "b.jpg" anyNames [] none ApiOutcome.timeout
      (by decide) rfl).1 rfl,
   (C1_empty_detection_amended "b.jpg" anyNames [] (some "k") ApiOutcome.timeout
      (by decide) rfl).2 rfl⟩

/-- C2, counterexample: an upload whose image cannot be decoded
(`cv2.imread` returns `None`) is never aborted with a 4xx-class error:
the detector swallows the failure into an empty result, so with no key
configured the request completes as a 200 success payload, and with a
key configured it fails with a 500 — raised by the blocking Advice
wrapper on the running event loop, not by the image decode. -/
theorem C2_decode_failure_counterexample :
    predict_success (predict "a.jpg" anyNames none none ApiOutcome.timeout) = some true
    ∧ predict_foods (predict "a.jpg" anyNames none none ApiOutcome.timeout) = some []
    ∧ predict "a.jpg" anyNames none (some "k") ApiOutcome.timeout = Except.error 500 :=
  ⟨rfl, rfl, rfl⟩

/-- C2 (amended): an undecodable image never aborts the request with a
4xx — the detector returns an empty result.  With no key configured the
request then completes as a 200 success payload; with a key configured
every request, decodable image or not, fails with a 500 raised by the
blocking Advice wrapper on the running event loop.  The only non-2xx
status the handler produces is 500: even its own missing-filename
`HTTPException(400)` is swallowed by the catch-all and re-raised as a
500. -/
theorem C2_error_paths_amended :
    ∀ (filename : String) (names : Nat → String) (decoded : Option (List RawBox))
      (key : Option String) (outcome : ApiOutcome),
      (filename = "" → predict filename names decoded key outcome = Except.error 500)
      ∧ (∀ c : Nat, predict filename names decoded key outcome = Except.error c → c = 500)
      ∧ (filename ≠ "" → keyTruthy key = false →
          predict_success (predict filename names none key outcome) = some true
          ∧ predict_foods (predict filename names none key outcome) = some [])
      ∧ (filename ≠ "" → keyTruthy key = true →
          predict filename names decoded key outcome = Except.error 500) := by
  intro filename names decoded key outcome
  refine ⟨?_, ?_, ?_, ?_⟩
  · intro h
    simp [predict, h]
  · intro c hc
    unfold predict at hc
    by_cases h : filename = ""
    · rw [if_pos h] at hc
      cases hc
      rfl
    · rw [if_neg h] at hc
      dsimp only [] at hc
      split at hc
      · cases hc
        rfl
      · split at hc
        · cases hc
        · cases hc
          rfl
  · intro hfn hk
    have hfoods2 : (detect_food_with_details names none).detected_foods = [] := rfl
    have hdets2 : (detect_food_with_details names none).detections = [] := rfl
    unfold predict
    rw [if_neg hfn]
    simp only [hfoods2, hdets2]
    simp [ask_mistral, hk, predict_success, predict_foods]
  · intro hfn hk
    unfold predict
    rw [if_neg hfn]
    simp [ask_mistral, hk]

/-- C2, witness: the amended theorem at a concrete missing-filename
request, a concrete keyless undecodable-image request, and a concrete
keyed request. -/
theorem C2_error_paths_amended_witness :
    predict "" anyNames none (some "k") ApiOutcome.timeout = Except.error 500
    ∧ (predict_success (predict "b.jpg" anyNames none none ApiOutcome.timeout) = some true
       ∧ predict_foods (predict "b.jpg" anyNames none none ApiOutcome.timeout) = some [])
    ∧ predict "c.jpg" anyNames (some []) (some "k") ApiOutcome.timeout = Except.error 500 :=
  ⟨(C2_error_paths_amended "" anyNames none (some "k") ApiOutcome.timeout).1 rfl,
   (C2_error_paths_amended "b.jpg" anyNames none none ApiOutcome.timeout).2.2.1
     (by decide) rfl,
   (C2_error_paths_amended "c.jpg" anyNames (some []) (some "k") ApiOutcome.timeout).2.2.2
     (by decide) rfl⟩
